import Mathlib

/-!
Verification of `src/task/content_generation/interest_discovery.py`
(asktheworld-ai/asktheworld): a prompt-templating wrapper around a
text-generation model client.

Conventions of the shallow embedding:
* Python `str` is Lean `String`; Python `int` is `Int`; `Optional[int]`
  is `Option Int`.
* Python `float` values here are only constructed from literals and
  passed through, never computed with, so `temperature` is modelled as
  `Rat` (the literal `0.7` becomes `(7 : Rat) / 10`).
* Exceptions raised by the model collaborator are modelled by
  `Except ε`: the model returns `Except.error e` instead of raising, and
  the wrapper is a function into `Except ε InterestDiscoveryResult`.
* The async variant `adiscover` has the same shape as `discover` after
  erasing the suspension point (`await`), so it is modelled as a plain
  function that calls the model record's non-blocking field.
-/

/-- Generation-request record of the model interface
(`LmGentxtParams` in `src/lib/model/txt/lm_gentxt_params.py`, seen here
through its construction site at `interest_discovery.py:103-108`). -/
structure LmGentxtParams where
  system_prompt : String
  prompt : String
  max_new_tokens : Option Int
  temperature : Rat
deriving DecidableEq, Repr

/-- Generation-response record of the model interface
(`LmGentxtResult` in `src/lib/model/txt/lm_gentxt_result.py`, seen here
through its field reads at `interest_discovery.py:117-119`). -/
structure LmGentxtResult where
  output : String
  input_tokens : Int
  output_tokens : Int
deriving DecidableEq, Repr

/-- `InterestDiscoveryParams` (`interest_discovery.py:25-43`): pydantic
model with required `field_of_topic` and `keywords`, `max_tokens`
defaulting to `4000` and `temperature` defaulting to `0.7`. The pydantic
`Field` declarations carry no value constraints (no `gt`/`ge`), so the
Lean fields are unconstrained. -/
structure InterestDiscoveryParams where
  field_of_topic : String
  keywords : String
  max_tokens : Option Int := some 4000
  temperature : Rat := (7 : Rat) / 10
deriving DecidableEq, Repr

/-- `InterestDiscoveryResult` (`interest_discovery.py:46-61`): pydantic
model with the echoed inputs, the analysis text and the two token
counters. The pydantic `Field` declarations carry no value constraints
(no `ge=0`), so the Lean fields are unconstrained. -/
structure InterestDiscoveryResult where
  field_of_topic : String
  keywords : String
  interest_analysis : String
  input_tokens : Int
  output_tokens : Int
deriving DecidableEq, Repr

/-- Modelled from the spec: one piece of the fixed prompt template
`INTEREST_DISCOVERY_PROMPT_TEMPLATE` (defined in
`src/task/content_generation/prompts.py`, which is not under `src/`).
Per the spec the template is a fixed string constant with two named
substitution slots, one for `field_of_topic` and one for `keywords`;
a template is modelled as a list of chunks, each a literal piece of
text or one of the two named slots. -/
inductive TemplateChunk where
  | lit : String → TemplateChunk
  | slot_field_of_topic : TemplateChunk
  | slot_keywords : TemplateChunk
deriving DecidableEq, Repr

/-- Render one template chunk: a literal is itself, a slot becomes the
corresponding argument string. -/
def renderChunk (f k : String) : TemplateChunk → String
  | .lit s => s
  | .slot_field_of_topic => f
  | .slot_keywords => k

/-- Modelled from the spec: Python `str.format` applied to the fixed
template (`interest_discovery.py:98-100`), substituting the two keyword
arguments `field_of_topic` and `keywords` into the named slots.
Rendering concatenates the chunks with each slot replaced. -/
def formatTemplate (tmpl : List TemplateChunk) (f k : String) : String :=
  match tmpl with
  | [] => ""
  | c :: cs => renderChunk f k c ++ formatTemplate cs f k

/-- Model collaborator (`LmBasis` in `src/lib/model/txt/lm_basis.py`,
seen through its use at `interest_discovery.py:111` and `:159`):
a record with a blocking generation operation `gentxt` and a
non-blocking one `agentxt`, each mapping generation parameters to a
response or an error. `ε` is the (opaque) type of errors the model may
raise. -/
structure LmBasis (ε : Type) where
  gentxt : LmGentxtParams → Except ε LmGentxtResult
  agentxt : LmGentxtParams → Except ε LmGentxtResult

/-- The `LmGentxtParams` value built at `interest_discovery.py:103-108`
(and identically at `:151-156`): the fixed system prompt, the rendered
prompt, `max_tokens` forwarded under `max_new_tokens`, and
`temperature` forwarded unchanged. `tmpl` and `sys` stand for the two
fixed constants imported from `prompts.py`. -/
def buildLlmParams (tmpl : List TemplateChunk) (sys : String)
    (params : InterestDiscoveryParams) : LmGentxtParams :=
  { system_prompt := sys
    prompt := formatTemplate tmpl params.field_of_topic params.keywords
    max_new_tokens := params.max_tokens
    temperature := params.temperature }

/-- `InterestDiscovery.discover` (`interest_discovery.py:83-127`):
render the prompt, build the generation request, call the model
blockingly, and wrap the response into an `InterestDiscoveryResult`
echoing the inputs. A model error propagates unchanged (Python: the
exception from `self.model.gentxt` is not caught). Logging calls are
observational and are not modelled. -/
def discover {ε : Type} (tmpl : List TemplateChunk) (sys : String)
    (model : LmBasis ε) (params : InterestDiscoveryParams) :
    Except ε InterestDiscoveryResult :=
  match model.gentxt (buildLlmParams tmpl sys params) with
  | .error e => .error e
  | .ok llm_result => .ok
      { field_of_topic := params.field_of_topic
        keywords := params.keywords
        interest_analysis := llm_result.output
        input_tokens := llm_result.input_tokens
        output_tokens := llm_result.output_tokens }

/-- `InterestDiscovery.adiscover` (`interest_discovery.py:129-175`):
identical to `discover` except that the model is called through its
non-blocking operation `agentxt` (the `await` suspension point is
erased by the embedding). -/
def adiscover {ε : Type} (tmpl : List TemplateChunk) (sys : String)
    (model : LmBasis ε) (params : InterestDiscoveryParams) :
    Except ε InterestDiscoveryResult :=
  match model.agentxt (buildLlmParams tmpl sys params) with
  | .error e => .error e
  | .ok llm_result => .ok
      { field_of_topic := params.field_of_topic
        keywords := params.keywords
        interest_analysis := llm_result.output
        input_tokens := llm_result.input_tokens
        output_tokens := llm_result.output_tokens }

/-- A stub model whose blocking and non-blocking operations both return
the same fixed response for every request; used to instantiate the
theorems on concrete inputs. -/
def constModel (r : LmGentxtResult) : LmBasis Empty :=
  { gentxt := fun _ => .ok r
    agentxt := fun _ => .ok r }

/-- C1. Echo invariant: whenever `discover` (or `adiscover`) returns a
result, the result's `field_of_topic` equals the request's
`field_of_topic` and the result's `keywords` equals the request's
`keywords`. -/
theorem discover_adiscover_echo {ε : Type} (tmpl : List TemplateChunk)
    (sys : String) (model : LmBasis ε) (params : InterestDiscoveryParams)
    (r r' : InterestDiscoveryResult) :
    (discover tmpl sys model params = .ok r →
      r.field_of_topic = params.field_of_topic ∧ r.keywords = params.keywords) ∧
    (adiscover tmpl sys model params = .ok r' →
      r'.field_of_topic = params.field_of_topic ∧ r'.keywords = params.keywords) := by
  constructor
  · intro h
    unfold discover at h
    cases hm : model.gentxt (buildLlmParams tmpl sys params) with
    | error e => rw [hm] at h; exact absurd h (by simp)
    | ok res => rw [hm] at h; cases h; exact ⟨rfl, rfl⟩
  · intro h
    unfold adiscover at h
    cases hm : model.agentxt (buildLlmParams tmpl sys params) with
    | error e => rw [hm] at h; exact absurd h (by simp)
    | ok res => rw [hm] at h; cases h; exact ⟨rfl, rfl⟩

/-- Witness for C1: the echo invariant instantiated on a concrete
request and stub model. -/
theorem discover_adiscover_echo_witness :
    (⟨"f", "k", "analysis", 3, 5⟩ : InterestDiscoveryResult).field_of_topic =
      ({ field_of_topic := "f", keywords := "k" } : InterestDiscoveryParams).field_of_topic ∧
    (⟨"f", "k", "analysis", 3, 5⟩ : InterestDiscoveryResult).keywords =
      ({ field_of_topic := "f", keywords := "k" } : InterestDiscoveryParams).keywords :=
  (discover_adiscover_echo [] "" (constModel ⟨"analysis", 3, 5⟩)
    { field_of_topic := "f", keywords := "k" }
    ⟨"f", "k", "analysis", 3, 5⟩ ⟨"f", "k", "analysis", 3, 5⟩).1 rfl

/-- C2. Token pass-through: when the model returns a response, the
result returned by `discover` (and `adiscover`) carries exactly the
response's `input_tokens`, `output_tokens` and `output`
(as `interest_analysis`), with no transformation. -/
theorem token_passthrough {ε : Type} (tmpl : List TemplateChunk)
    (sys : String) (model : LmBasis ε) (params : InterestDiscoveryParams)
    (resp resp' : LmGentxtResult) :
    (model.gentxt (buildLlmParams tmpl sys params) = .ok resp →
      discover tmpl sys model params =
        .ok ⟨params.field_of_topic, params.keywords, resp.output,
             resp.input_tokens, resp.output_tokens⟩) ∧
    (model.agentxt (buildLlmParams tmpl sys params) = .ok resp' →
      adiscover tmpl sys model params =
        .ok ⟨params.field_of_topic, params.keywords, resp'.output,
             resp'.input_tokens, resp'.output_tokens⟩) := by
  constructor
  · intro h; unfold discover; rw [h]
  · intro h; unfold adiscover; rw [h]

/-- Witness for C2: pass-through instantiated on a concrete request and
stub model. -/
theorem token_passthrough_witness :
    discover [] "" (constModel ⟨"out", 10, 20⟩)
      { field_of_topic := "f", keywords := "k" } =
      .ok ⟨"f", "k", "out", 10, 20⟩ :=
  (token_passthrough [] "" (constModel ⟨"out", 10, 20⟩)
    { field_of_topic := "f", keywords := "k" } ⟨"out", 10, 20⟩ ⟨"out", 10, 20⟩).1 rfl

/-- Rendering a concatenation of two templates concatenates the two
renderings. -/
theorem formatTemplate_append (a b : List TemplateChunk) (f k : String) :
    formatTemplate (a ++ b) f k = formatTemplate a f k ++ formatTemplate b f k := by
  induction a with
  | nil => simp [formatTemplate]
  | cons c cs ih => simp [formatTemplate, ih, String.append_assoc]

/-- C3. Prompt rendering: for a template whose chunks put the
`field_of_topic` slot before the `keywords` slot, the prompt of the
generation request that `discover` and `adiscover` pass to the model is
the template rendered with the request's two strings substituted at the
slots, so it contains both strings as substrings at those designated
positions, and the fixed system prompt is forwarded verbatim. -/
theorem prompt_rendering (tmpl pre mid post : List TemplateChunk)
    (sys : String) (params : InterestDiscoveryParams)
    (h : tmpl = pre ++ TemplateChunk.slot_field_of_topic ::
          (mid ++ TemplateChunk.slot_keywords :: post)) :
    (buildLlmParams tmpl sys params).prompt =
      formatTemplate pre params.field_of_topic params.keywords ++
      (params.field_of_topic ++
      (formatTemplate mid params.field_of_topic params.keywords ++
      (params.keywords ++
      formatTemplate post params.field_of_topic params.keywords))) ∧
    params.field_of_topic.data <:+: (buildLlmParams tmpl sys params).prompt.data ∧
    params.keywords.data <:+: (buildLlmParams tmpl sys params).prompt.data ∧
    (buildLlmParams tmpl sys params).system_prompt = sys := by
  subst h
  have hd : (buildLlmParams
      (pre ++ TemplateChunk.slot_field_of_topic ::
        (mid ++ TemplateChunk.slot_keywords :: post)) sys params).prompt =
      formatTemplate pre params.field_of_topic params.keywords ++
      (params.field_of_topic ++
      (formatTemplate mid params.field_of_topic params.keywords ++
      (params.keywords ++
      formatTemplate post params.field_of_topic params.keywords))) := by
    show formatTemplate _ _ _ = _
    rw [formatTemplate_append]
    simp [formatTemplate, formatTemplate_append, renderChunk]
  refine ⟨hd, ?_, ?_, rfl⟩
  · rw [hd]
    exact ⟨(formatTemplate pre params.field_of_topic params.keywords).data,
      (formatTemplate mid params.field_of_topic params.keywords ++
        (params.keywords ++
        formatTemplate post params.field_of_topic params.keywords)).data,
      by simp [String.append_assoc]⟩
  · rw [hd]
    exact ⟨(formatTemplate pre params.field_of_topic params.keywords ++
        (params.field_of_topic ++
        formatTemplate mid params.field_of_topic params.keywords)).data,
      (formatTemplate post params.field_of_topic params.keywords).data,
      by simp [String.append_assoc]⟩

/-- Witness for C3: rendering instantiated on a concrete template with
a literal between the two slots. -/
theorem prompt_rendering_witness :
    (buildLlmParams
      [TemplateChunk.lit "Field: ", TemplateChunk.slot_field_of_topic,
       TemplateChunk.lit "; keywords: ", TemplateChunk.slot_keywords]
      "sys" { field_of_topic := "space", keywords := "mars" }).prompt =
      formatTemplate [TemplateChunk.lit "Field: "] "space" "mars" ++
      ("space" ++
      (formatTemplate [TemplateChunk.lit "; keywords: "] "space" "mars" ++
      ("mars" ++ formatTemplate [] "space" "mars"))) ∧
    "space".data <:+: (buildLlmParams
      [TemplateChunk.lit "Field: ", TemplateChunk.slot_field_of_topic,
       TemplateChunk.lit "; keywords: ", TemplateChunk.slot_keywords]
      "sys" { field_of_topic := "space", keywords := "mars" }).prompt.data ∧
    "mars".data <:+: (buildLlmParams
      [TemplateChunk.lit "Field: ", TemplateChunk.slot_field_of_topic,
       TemplateChunk.lit "; keywords: ", TemplateChunk.slot_keywords]
      "sys" { field_of_topic := "space", keywords := "mars" }).prompt.data ∧
    (buildLlmParams
      [TemplateChunk.lit "Field: ", TemplateChunk.slot_field_of_topic,
       TemplateChunk.lit "; keywords: ", TemplateChunk.slot_keywords]
      "sys" { field_of_topic := "space", keywords := "mars" }).system_prompt = "sys" :=
  prompt_rendering
    [TemplateChunk.lit "Field: ", TemplateChunk.slot_field_of_topic,
     TemplateChunk.lit "; keywords: ", TemplateChunk.slot_keywords]
    [TemplateChunk.lit "Field: "] [TemplateChunk.lit "; keywords: "] []
    "sys" { field_of_topic := "space", keywords := "mars" } rfl

/-- C4. Sync/async equivalence: if the model's non-blocking operation
returns the same response as its blocking operation for every request
(a deterministic model), then `adiscover` and `discover` agree on every
request. -/
theorem sync_async_equiv {ε : Type} (tmpl : List TemplateChunk)
    (sys : String) (model : LmBasis ε) (params : InterestDiscoveryParams)
    (h : ∀ p : LmGentxtParams, model.agentxt p = model.gentxt p) :
    adiscover tmpl sys model params = discover tmpl sys model params := by
  unfold adiscover discover
  rw [h]

/-- Witness for C4: the equivalence instantiated on a concrete request
and a stub model whose two operations agree. -/
theorem sync_async_equiv_witness :
    adiscover [] "" (constModel ⟨"out", 1, 2⟩)
      { field_of_topic := "f", keywords := "k" } =
    discover [] "" (constModel ⟨"out", 1, 2⟩)
      { field_of_topic := "f", keywords := "k" } :=
  sync_async_equiv [] "" (constModel ⟨"out", 1, 2⟩)
    { field_of_topic := "f", keywords := "k" } (fun _ => rfl)

/-- A stub model whose blocking and non-blocking operations both fail
with a fixed error for every request. -/
def errModel : LmBasis Unit :=
  { gentxt := fun _ => .error ()
    agentxt := fun _ => .error () }

/-- C5. Error propagation: if the model's generation operation fails
with error `e`, then `discover` (and `adiscover`) fails with the same
error `e` unmodified, and no `InterestDiscoveryResult` is produced. -/
theorem error_propagation {ε : Type} (tmpl : List TemplateChunk)
    (sys : String) (model : LmBasis ε) (params : InterestDiscoveryParams)
    (e e' : ε) :
    (model.gentxt (buildLlmParams tmpl sys params) = .error e →
      discover tmpl sys model params = .error e) ∧
    (model.agentxt (buildLlmParams tmpl sys params) = .error e' →
      adiscover tmpl sys model params = .error e') := by
  constructor
  · intro h; unfold discover; rw [h]
  · intro h; unfold adiscover; rw [h]

/-- Witness for C5: error propagation instantiated on a concrete
request and a stub model that always fails. -/
theorem error_propagation_witness :
    discover [] "" errModel { field_of_topic := "f", keywords := "k" } =
      .error () :=
  (error_propagation [] "" errModel
    { field_of_topic := "f", keywords := "k" } () ()).1 rfl

/-- C6. Defaults: an `InterestDiscoveryParams` constructed without
`max_tokens` has `max_tokens = some 4000`; one constructed without
`temperature` has `temperature = 0.7`; and the generation request
forwards `max_tokens` under `max_new_tokens` and `temperature`
unchanged. -/
theorem params_defaults_forwarded (f k : String) (tmpl : List TemplateChunk)
    (sys : String) :
    ({ field_of_topic := f, keywords := k } : InterestDiscoveryParams).max_tokens
      = some 4000 ∧
    ({ field_of_topic := f, keywords := k } : InterestDiscoveryParams).temperature
      = (7 : Rat) / 10 ∧
    ∀ params : InterestDiscoveryParams,
      (buildLlmParams tmpl sys params).max_new_tokens = params.max_tokens ∧
      (buildLlmParams tmpl sys params).temperature = params.temperature :=
  ⟨rfl, rfl, fun _ => ⟨rfl, rfl⟩⟩

/-- C7 counterexample: construction of `InterestDiscoveryParams` does
not force a supplied `max_tokens` to be positive — the instance with
`max_tokens = some (-5)` is constructible, refuting the claim that
every constructed instance with `max_tokens` present has it positive. -/
theorem max_tokens_positive_cex :
    ¬ ∀ (p : InterestDiscoveryParams) (m : Int), p.max_tokens = some m → 0 < m := by
  intro h
  have hneg := h { field_of_topic := "a", keywords := "b",
                   max_tokens := some (-5), temperature := (7 : Rat) / 10 } (-5) rfl
  exact absurd hneg (by decide)

/-- C7 amended: construction stores whatever `max_tokens` value it is
given, with no positivity constraint; only the default value, used when
`max_tokens` is omitted, is the positive integer 4000. -/
theorem max_tokens_unconstrained :
    (∀ (f k : String) (m : Option Int) (t : Rat),
      (InterestDiscoveryParams.mk f k m t).max_tokens = m) ∧
    (∀ f k : String,
      ({ field_of_topic := f, keywords := k } : InterestDiscoveryParams).max_tokens
        = some 4000) ∧
    (0 : Int) < 4000 :=
  ⟨fun _ _ _ _ => rfl, fun _ _ => rfl, by decide⟩

/-- C8 counterexample: `InterestDiscoveryResult` does not enforce
non-negative token counts — the instance with `input_tokens = -1` and
`output_tokens = -2` is constructible, refuting the claim that every
constructed instance has non-negative counts. -/
theorem result_tokens_nonneg_cex :
    ¬ ∀ r : InterestDiscoveryResult, 0 ≤ r.input_tokens ∧ 0 ≤ r.output_tokens := by
  intro h
  have hneg := (h ⟨"f", "k", "a", -1, -2⟩).1
  exact absurd hneg (by decide)

/-- C8 amended: the result container stores whatever integer token
counts it is given (no constraint of its own); the result of `discover`
carries the model response's token counts by pass-through equality, so
its counts are non-negative exactly whenever the model's returned
counts are non-negative. -/
theorem result_tokens_amended {ε : Type} (tmpl : List TemplateChunk)
    (sys : String) (model : LmBasis ε) (params : InterestDiscoveryParams)
    (resp : LmGentxtResult) (r : InterestDiscoveryResult)
    (h : model.gentxt (buildLlmParams tmpl sys params) = .ok resp)
    (hok : discover tmpl sys model params = .ok r) :
    r.input_tokens = resp.input_tokens ∧
    r.output_tokens = resp.output_tokens ∧
    (0 ≤ r.input_tokens ↔ 0 ≤ resp.input_tokens) ∧
    (0 ≤ r.output_tokens ↔ 0 ≤ resp.output_tokens) ∧
    ∀ (f k a : String) (i o : Int),
      (InterestDiscoveryResult.mk f k a i o).input_tokens = i ∧
      (InterestDiscoveryResult.mk f k a i o).output_tokens = o := by
  unfold discover at hok
  rw [h] at hok
  injection hok with h2
  subst h2
  exact ⟨rfl, rfl, Iff.rfl, Iff.rfl, fun _ _ _ _ _ => ⟨rfl, rfl⟩⟩

/-- Witness for C8 amended: instantiated on a concrete request and a
stub model returning a negative input count, exercising both directions
of the biconditional. -/
theorem result_tokens_amended_witness :
    (⟨"f", "k", "o", -3, 20⟩ : InterestDiscoveryResult).input_tokens =
      (⟨"o", -3, 20⟩ : LmGentxtResult).input_tokens ∧
    (⟨"f", "k", "o", -3, 20⟩ : InterestDiscoveryResult).output_tokens =
      (⟨"o", -3, 20⟩ : LmGentxtResult).output_tokens ∧
    ((0 : Int) ≤ (⟨"f", "k", "o", -3, 20⟩ : InterestDiscoveryResult).input_tokens ↔
      (0 : Int) ≤ (⟨"o", -3, 20⟩ : LmGentxtResult).input_tokens) ∧
    ((0 : Int) ≤ (⟨"f", "k", "o", -3, 20⟩ : InterestDiscoveryResult).output_tokens ↔
      (0 : Int) ≤ (⟨"o", -3, 20⟩ : LmGentxtResult).output_tokens) ∧
    ∀ (f k a : String) (i o : Int),
      (InterestDiscoveryResult.mk f k a i o).input_tokens = i ∧
      (InterestDiscoveryResult.mk f k a i o).output_tokens = o :=
  result_tokens_amended [] "" (constModel ⟨"o", -3, 20⟩)
    { field_of_topic := "f", keywords := "k" } ⟨"o", -3, 20⟩
    ⟨"f", "k", "o", -3, 20⟩ rfl rfl

/-- C9. Concrete scenario: the request with field "space exploration"
and keywords "mars colonization risks" (default generation knobs)
against a stub model returning the fixed analysis and token counts
(120, 45) yields exactly the expected result. -/
theorem discover_scenario :
    discover [TemplateChunk.slot_field_of_topic, TemplateChunk.slot_keywords] ""
      (constModel ⟨"Is Mars colonization doomed?", 120, 45⟩)
      { field_of_topic := "space exploration",
        keywords := "mars colonization risks",
        max_tokens := some 4000, temperature := (7 : Rat) / 10 } =
    .ok ⟨"space exploration", "mars colonization risks",
         "Is Mars colonization doomed?", 120, 45⟩ := rfl

/-- A stub model over the error type `Unit` whose blocking and
non-blocking operations both return the same fixed response for every
request. -/
def okUnitModel (r : LmGentxtResult) : LmBasis Unit :=
  { gentxt := fun _ => .ok r
    agentxt := fun _ => .ok r }

/-- C10. No local input validation: for every request, including one
with empty strings, the generation request carries exactly the rendered
template of the request's strings; whenever the model returns a
response, `discover` (and `adiscover`) returns the echoing result; and
`discover` (and `adiscover`) fails with an error exactly when the model
does, with the same error — so no validation error of the component's
own is ever raised. -/
theorem no_local_validation {ε : Type} (tmpl : List TemplateChunk)
    (sys : String) (model : LmBasis ε) (params : InterestDiscoveryParams)
    (resp resp' : LmGentxtResult) (e e' : ε) :
    (buildLlmParams tmpl sys params).prompt =
      formatTemplate tmpl params.field_of_topic params.keywords ∧
    (model.gentxt (buildLlmParams tmpl sys params) = .ok resp →
      discover tmpl sys model params =
        .ok ⟨params.field_of_topic, params.keywords, resp.output,
             resp.input_tokens, resp.output_tokens⟩) ∧
    (model.agentxt (buildLlmParams tmpl sys params) = .ok resp' →
      adiscover tmpl sys model params =
        .ok ⟨params.field_of_topic, params.keywords, resp'.output,
             resp'.input_tokens, resp'.output_tokens⟩) ∧
    (discover tmpl sys model params = .error e ↔
      model.gentxt (buildLlmParams tmpl sys params) = .error e) ∧
    (adiscover tmpl sys model params = .error e' ↔
      model.agentxt (buildLlmParams tmpl sys params) = .error e') := by
  refine ⟨rfl, ?_, ?_, ?_, ?_⟩
  · intro h; unfold discover; rw [h]
  · intro h; unfold adiscover; rw [h]
  · constructor
    · intro h
      unfold discover at h
      cases hm : model.gentxt (buildLlmParams tmpl sys params) with
      | error e2 =>
        rw [hm] at h
        injection h with h2
        subst h2
        rfl
      | ok res => rw [hm] at h; exact absurd h (by simp)
    · intro h; unfold discover; rw [h]
  · constructor
    · intro h
      unfold adiscover at h
      cases hm : model.agentxt (buildLlmParams tmpl sys params) with
      | error e2 =>
        rw [hm] at h
        injection h with h2
        subst h2
        rfl
      | ok res => rw [hm] at h; exact absurd h (by simp)
    · intro h; unfold adiscover; rw [h]

/-- Witness for C10: instantiated on the empty-string request and a
stub model, showing the empty strings are forwarded and echoed with no
validation error. -/
theorem no_local_validation_witness :
    (buildLlmParams [TemplateChunk.slot_field_of_topic] ""
      { field_of_topic := "", keywords := "" }).prompt =
      formatTemplate [TemplateChunk.slot_field_of_topic] "" "" ∧
    ((okUnitModel ⟨"o", 1, 2⟩).gentxt
        (buildLlmParams [TemplateChunk.slot_field_of_topic] ""
          { field_of_topic := "", keywords := "" }) = .ok ⟨"o", 1, 2⟩ →
      discover [TemplateChunk.slot_field_of_topic] "" (okUnitModel ⟨"o", 1, 2⟩)
        { field_of_topic := "", keywords := "" } =
        .ok ⟨"", "", "o", 1, 2⟩) ∧
    ((okUnitModel ⟨"o", 1, 2⟩).agentxt
        (buildLlmParams [TemplateChunk.slot_field_of_topic] ""
          { field_of_topic := "", keywords := "" }) = .ok ⟨"o", 1, 2⟩ →
      adiscover [TemplateChunk.slot_field_of_topic] "" (okUnitModel ⟨"o", 1, 2⟩)
        { field_of_topic := "", keywords := "" } =
        .ok ⟨"", "", "o", 1, 2⟩) ∧
    (discover [TemplateChunk.slot_field_of_topic] "" (okUnitModel ⟨"o", 1, 2⟩)
        { field_of_topic := "", keywords := "" } = .error () ↔
      (okUnitModel ⟨"o", 1, 2⟩).gentxt
        (buildLlmParams [TemplateChunk.slot_field_of_topic] ""
          { field_of_topic := "", keywords := "" }) = .error ()) ∧
    (adiscover [TemplateChunk.slot_field_of_topic] "" (okUnitModel ⟨"o", 1, 2⟩)
        { field_of_topic := "", keywords := "" } = .error () ↔
      (okUnitModel ⟨"o", 1, 2⟩).agentxt
        (buildLlmParams [TemplateChunk.slot_field_of_topic] ""
          { field_of_topic := "", keywords := "" }) = .error ()) :=
  no_local_validation [TemplateChunk.slot_field_of_topic] ""
    (okUnitModel ⟨"o", 1, 2⟩) { field_of_topic := "", keywords := "" }
    ⟨"o", 1, 2⟩ ⟨"o", 1, 2⟩ () ()
